import Mathlib

/-!
Verification of the element-locator and action-recording core of the
web_page_analyzer repository, shallowly embedded from
src/web_page_analyzer/analyzer.py.

Fallible accesses on live browser handles (a stale element raising on
property access, the injected hierarchy script throwing) are embedded as
Option / Except values; everything else is translated directly from the
Python source.
-/

namespace WebPageAnalyzer

/-- Python str.strip(): drop whitespace from both ends (structurally, over the
character list, so that proofs can evaluate it). -/
def strip (s : String) : String :=
  ⟨((s.data.dropWhile Char.isWhitespace).reverse.dropWhile Char.isWhitespace).reverse⟩

/-- Python slicing text[:n]: the first n characters. -/
def takeChars (s : String) (n : Nat) : String :=
  ⟨s.data.take n⟩

/-- Python str.lower() / JavaScript toLowerCase(), over the character list. -/
def lowerStr (s : String) : String :=
  ⟨s.data.map Char.toLower⟩

/--
A live element handle as observed by XPathGenerator.generate_xpath.
`tag_name = none` models a stale or detached handle, whose very first
property access (element.tag_name, line 45) raises in the source.
Attribute getters returning Python None or the empty string are both
falsy there, so they are modelled as the empty string.  `rel` is the
outcome of the XPathGenerator._generate_relative_xpath call (a live
script round-trip): `none` models the call raising (swallowed by the
bare except at lines 79-80) or returning a falsy value.
-/
structure WebElement where
  tag_name : Option String
  id : String
  className : String
  name : String
  text : String
  rel : Option String

namespace XPathGenerator

/--
The candidate list built by generate_xpath (analyzer.py lines 42-80),
given the already-read tag name, attributes, stripped text and the
relative-XPath outcome.  Order matters: id, name, class, the two text
variants, then the hierarchical candidate.
-/
def xpath_candidates (tag element_id class_name nm text : String)
    (rel : Option String) : List String :=
  (if element_id ≠ "" then ["//*[@id=\x27" ++ element_id ++ "\x27]"] else []) ++
  (if nm ≠ "" then ["//" ++ tag ++ "[@name=\x27" ++ nm ++ "\x27]"] else []) ++
  (if class_name ≠ "" then
    (let classes := (class_name.split Char.isWhitespace).filter (fun c => c ≠ "")
     if classes.length == 1 then
       ["//" ++ tag ++ "[@class=\x27" ++ class_name ++ "\x27]"]
     else
       ["//" ++ tag ++ "[" ++
         String.intercalate " and "
           (classes.map (fun cls => "contains(@class, \x27" ++ cls ++ "\x27)")) ++ "]"])
   else []) ++
  (if text ≠ "" ∧ text.length < 50 then
    ["//" ++ tag ++ "[text()=\x27" ++ text ++ "\x27]",
     "//" ++ tag ++ "[contains(text(), \x27" ++ takeChars text 20 ++ "\x27)]"]
   else []) ++
  (match rel with
   | some r => if r ≠ "" then [r] else []
   | none => [])

/--
XPathGenerator.generate_xpath (analyzer.py lines 39-82).  On a stale
handle the first property read raises, which the function does not
catch: this surfaces as an error.  Otherwise the first candidate is
returned, or the terminal fallback //TAG when no candidate exists.
-/
def generate_xpath (e : WebElement) : Except String String :=
  match e.tag_name with
  | none => .error "ResolutionError: stale or detached element handle"
  | some tag =>
      let xpaths := xpath_candidates tag e.id e.className e.name (strip e.text) e.rel
      .ok (xpaths.headD ("//" ++ tag))

end XPathGenerator

/-- The string s begins with the string p (prefix characterisation over the
character list). -/
def beginsWith (p s : String) : Prop :=
  s.data.take p.data.length = p.data

/-- Decimal decoding of a digit string, used to invert Nat.repr. -/
def decFrom (a : Nat) : List Char → Nat
  | [] => a
  | c :: cs => decFrom (10 * a + (c.toNat - 48)) cs

/--
A DOM node as seen by the injected getXPath script of
XPathGenerator._generate_relative_xpath (analyzer.py lines 88-110): its
id, tagName, nodeType, and childNodes.
-/
inductive Dom where
  | node (id : String) (tagName : String) (nodeType : Nat) (children : List Dom)

/-- The id of a DOM node. -/
def Dom.id : Dom → String
  | .node i _ _ _ => i

/-- The tagName of a DOM node. -/
def Dom.tagName : Dom → String
  | .node _ t _ _ => t

/-- The nodeType of a DOM node (1 = element node). -/
def Dom.nodeType : Dom → Nat
  | .node _ _ n _ => n

/-- The childNodes of a DOM node. -/
def Dom.children : Dom → List Dom
  | .node _ _ _ cs => cs

/-- The node reached from d by the given chain of childNodes indices. -/
def nodeAt : Dom → List Nat → Option Dom
  | d, [] => some d
  | d, i :: rest =>
      match d.children[i]? with
      | some c => nodeAt c rest
      | none => none

/--
The sibling scan of the injected script: how many element-type siblings
with the given tagName precede position i in the childNodes list (the
variable ix when the loop reaches the element).
-/
def countSameTag (siblings : List Dom) (tag : String) (i : Nat) : Nat :=
  ((siblings.take i).filter (fun s => s.nodeType == 1 && s.tagName == tag)).length

/--
The recursive getXPath of the injected script, on a path given in
reversed form (deepest childNodes index first).  The modelled document
root is document.body; an element handle is (root, path).  A node with a
non-empty id short-circuits to the id expression; body yields /html/body;
otherwise the parent XPath is extended with /tag[ix+1].  `none` models
the script failing on an invalid handle (swallowed by the caller).
-/
def getXPathRev (root : Dom) : List Nat → Option String
  | [] =>
      if root.id ≠ "" then some ("//*[@id=\x27" ++ root.id ++ "\x27]")
      else some "/html/body"
  | i :: rev =>
      match nodeAt root rev.reverse with
      | none => none
      | some p =>
          match p.children[i]? with
          | none => none
          | some e =>
              if e.id ≠ "" then some ("//*[@id=\x27" ++ e.id ++ "\x27]")
              else
                match getXPathRev root rev with
                | none => none
                | some pre =>
                    some (pre ++ "/" ++ lowerStr e.tagName ++ "[" ++
                      Nat.repr (countSameTag p.children e.tagName i + 1) ++ "]")

/-- XPathGenerator._generate_relative_xpath: run the injected getXPath on the
element at the given childNodes path below document.body. -/
def getXPath (root : Dom) (path : List Nat) : Option String :=
  getXPathRev root path.reverse

/-- The ActionRecord dataclass (analyzer.py lines 22-33).  The attribute
mapping is a key-value list. -/
structure ActionRecord where
  timestamp : String
  action_type : String
  element_xpath : String
  element_text : String
  element_tag : String
  element_attributes : List (String × String)
  page_url : String
  description : String
  screenshot_path : Option String := none

namespace LLMAnalyzer

/-- LLMAnalyzer._fallback_analysis (analyzer.py lines 152-166): rule-based
description from the action fields alone. -/
def fallback_analysis (action : ActionRecord) : String :=
  if action.action_type = "click" then
    if action.element_text ≠ "" then
      "Click on \x27" ++ action.element_text ++ "\x27 button/link"
    else
      "Click on " ++ action.element_tag ++ " element"
  else if action.action_type = "input" then
    "Enter text in " ++
      (if action.element_text ≠ "" then action.element_text else action.element_tag) ++
      " field"
  else if action.action_type = "navigate" then
    "Navigate to " ++ action.page_url
  else if action.action_type = "scroll" then
    "Scroll page"
  else
    "Perform " ++ action.action_type ++ " action"

/--
LLMAnalyzer.analyze_action (analyzer.py lines 123-150).  The remote
generate_content call is an oracle parameter; api_key None or empty is
falsy in Python, so either way the fallback runs without calling the
oracle; an oracle failure (the except branch) also falls back.
-/
def analyze_action (api_key : Option String) (llm : ActionRecord → Except String String)
    (action : ActionRecord) : String :=
  if api_key.getD "" = "" then fallback_analysis action
  else
    match llm action with
    | .ok t => strip t
    | .error _ => fallback_analysis action

end LLMAnalyzer

/--
The element payload of a raw JavaScript event, as read back by
ActionRecorder._get_element_key and _create_action_record: the id, name,
tagName, textContent, className, type, value and href properties
(missing properties read as the empty string).
-/
structure JsElement where
  id : String
  name : String
  tagName : String
  textContent : String
  className : String
  typeAttr : String
  value : String
  href : String

/-- A raw event drained from window.recordedActions: its type, timestamp,
optional actionId, optional value, optional url and optional element. -/
structure JsAction where
  typ : String
  timestamp : Nat
  actionId : Option String
  value : Option String
  url : Option String
  element : Option JsElement

/-- The live-browser observations a single poll iteration can make: the
wall-clock timestamp string, driver.current_url, and the outcome of the
hierarchical-XPath script for an element (none = the call raises). -/
structure RecEnv where
  now : String
  current_url : String
  rel_xpath : JsElement → Option String

/-- The recorder state mutated by ActionRecorder._monitor_actions: the action
sequence, the processed dedup keys, the last recorded URL, and the last
recorded input value per element key. -/
structure RecState where
  actions : List ActionRecord
  processed : List String
  last_url : String
  last_input_values : List (String × String)

/-- The dedup key of a drained event (analyzer.py line 422):
js_action.get(\x27actionId\x27) or f-string of type and timestamp; a missing
or empty actionId is falsy, so the synthesized key is used. -/
def action_key (a : JsAction) : String :=
  match a.actionId with
  | some s => if s = "" then a.typ ++ "_" ++ Nat.repr a.timestamp else s
  | none => a.typ ++ "_" ++ Nat.repr a.timestamp

/-- ActionRecorder._get_element_key (analyzer.py lines 460-474): the
concatenation (elem.id or \x27\x27) + \x27_\x27 + (elem.name or \x27\x27) +
\x27_\x27 + elem.tagName, falling back to the timestamp when the element is
missing or the script yields a falsy result. -/
def get_element_key (a : JsAction) : String :=
  match a.element with
  | none => Nat.repr a.timestamp
  | some e =>
      let s := e.id ++ "_" ++ e.name ++ "_" ++ e.tagName
      if s = "" then Nat.repr a.timestamp else s

/-- The element key as the specification words it for input deduplication:
the id, else the name, else the tag name.  Stated only to compare against
get_element_key, which the code actually uses. -/
def spec_element_key (e : JsElement) : String :=
  if e.id ≠ "" then e.id else if e.name ≠ "" then e.name else e.tagName

/-- The WebElement observations of a recorded element, as used for XPath
generation inside _create_action_record (selenium lowercases tag_name). -/
def webElementOf (env : RecEnv) (e : JsElement) : WebElement :=
  { tag_name := some (lowerStr e.tagName)
    id := e.id
    className := e.className
    name := e.name
    text := e.textContent
    rel := env.rel_xpath e }

/--
ActionRecorder._create_action_record (analyzer.py lines 476-559).
navigate events always produce a record from the reported url (a missing
url raises, caught as None).  Other events need an element whose tagName
is non-empty; XPath generation failures fall back to //TAG; the six
attributes are kept when non-empty.
-/
def create_action_record (env : RecEnv) (a : JsAction) : Option ActionRecord :=
  if a.typ = "navigate" then
    match a.url with
    | none => none
    | some u =>
        some { timestamp := env.now, action_type := "navigate", element_xpath := ""
               element_text := "", element_tag := "", element_attributes := []
               page_url := u, description := "Navigated to " ++ u }
  else
    match a.element with
    | none => none
    | some e =>
        if e.tagName = "" then none
        else
          let xpath :=
            match XPathGenerator.generate_xpath (webElementOf env e) with
            | .ok x => x
            | .error _ => "//" ++ lowerStr e.tagName
          some { timestamp := env.now
                 action_type := a.typ
                 element_xpath := xpath
                 element_text := takeChars (strip e.textContent) 100
                 element_tag := lowerStr e.tagName
                 element_attributes :=
                   ([("id", e.id), ("className", e.className), ("name", e.name),
                     ("type", e.typeAttr), ("value", e.value),
                     ("href", e.href)].filter (fun kv => kv.2 ≠ ""))
                 page_url := env.current_url
                 description := a.typ ++ " on " ++ lowerStr e.tagName }

/-- Append a record and mark its dedup key processed when record creation
succeeds (the tail of the per-event body, analyzer.py lines 444-448). -/
def record_action (env : RecEnv) (st : RecState) (a : JsAction) (key : String) : RecState :=
  match create_action_record env a with
  | none => st
  | some r => { st with actions := st.actions ++ [r], processed := key :: st.processed }

/--
One drained event processed by the _monitor_actions loop body
(analyzer.py lines 420-448): skip already-processed keys, suppress input
events repeating the last value for the element key, suppress navigate
events repeating the last URL, then create and append the record.
-/
def monitor_step (env : RecEnv) (st : RecState) (a : JsAction) : RecState :=
  let key := action_key a
  if key ∈ st.processed then st
  else if a.typ = "input" then
    let ekey := get_element_key a
    let v := a.value.getD ""
    if st.last_input_values.lookup ekey = some v then st
    else record_action env { st with last_input_values := (ekey, v) :: st.last_input_values } a key
  else if a.typ = "navigate" then
    let u := a.url.getD ""
    if u = st.last_url then st
    else record_action env { st with last_url := u } a key
  else record_action env st a key

/-- A concrete poll environment for evaluating the recorder on examples: a
fixed clock and URL, with the hierarchical-XPath script unavailable. -/
def demoEnv : RecEnv :=
  { now := "2024-01-01 00:00:00", current_url := "http://example.com",
    rel_xpath := fun _ => none }

/-- The recorder state right after start_recording resets it (analyzer.py
lines 370-377), with an empty starting URL. -/
def recState0 : RecState :=
  { actions := [], processed := [], last_url := "", last_input_values := [] }

/-- The first input element of the C4 scenario: id x, name y, an INPUT tag. -/
def fieldA : JsElement :=
  { id := "x", name := "y", tagName := "INPUT", textContent := "",
    className := "", typeAttr := "", value := "", href := "" }

/-- The second input element of the C4 scenario: same id x, different name z. -/
def fieldB : JsElement :=
  { id := "x", name := "z", tagName := "INPUT", textContent := "",
    className := "", typeAttr := "", value := "", href := "" }

/-- The C4 scenario events: the same value v typed into the two fields. -/
def inputEventA : JsAction :=
  { typ := "input", timestamp := 1, actionId := some "k1", value := some "v",
    url := none, element := some fieldA }

/-- The second C4 scenario event, carrying the same value v on fieldB. -/
def inputEventB : JsAction :=
  { typ := "input", timestamp := 2, actionId := some "k2", value := some "v",
    url := none, element := some fieldB }

/-- A recorder state that has already recorded value v for key x_y_INPUT. -/
def stateWithV : RecState :=
  { actions := [], processed := [], last_url := "",
    last_input_values := [("x_y_INPUT", "v")] }

/-- The input event used by the C4 witness: value v typed into fieldA. -/
def inputEventW : JsAction :=
  { typ := "input", timestamp := 3, actionId := some "k9", value := some "v",
    url := none, element := some fieldA }

/-- The navigate event of the C5 scenario. -/
def navEvent : JsAction :=
  { typ := "navigate", timestamp := 7, actionId := some "n1", value := none,
    url := some "http://example.com/page", element := none }

/-- A recorder state whose last recorded URL is already the C5 target. -/
def stateAtPage : RecState :=
  { actions := [], processed := [], last_url := "http://example.com/page",
    last_input_values := [] }

/-- C1: whenever the id attribute is non-empty, the id-based expression is the
first candidate, hence the primary locator generate_xpath returns, regardless
of the name, class, text or hierarchical candidates the element also has. -/
theorem generate_xpath_id_primary (e : WebElement) (tag : String)
    (htag : e.tag_name = some tag) (hid : e.id ≠ "") :
    XPathGenerator.generate_xpath e = .ok ("//*[@id=\x27" ++ e.id ++ "\x27]") := by
  simp [XPathGenerator.generate_xpath, htag, XPathGenerator.xpath_candidates, hid]

/-- Witness for C1 at a concrete element carrying id, name, class and text. -/
theorem generate_xpath_id_primary_witness :
    XPathGenerator.generate_xpath
      { tag_name := some "input", id := "user", className := "c1 c2",
        name := "login", text := "Hello", rel := none }
      = .ok "//*[@id=\x27user\x27]" :=
  generate_xpath_id_primary
    { tag_name := some "input", id := "user", className := "c1 c2",
      name := "login", text := "Hello", rel := none } "input" rfl (by decide)

/-- C2: on a handle with no tag name (stale/detached: the tag_name read raises)
generate_xpath fails the whole operation with a resolution error; it never
silently returns an empty or generic locator string. -/
theorem generate_xpath_stale_error (e : WebElement)
    (h : e.tag_name = none) :
    XPathGenerator.generate_xpath e
      = .error "ResolutionError: stale or detached element handle" := by
  simp [XPathGenerator.generate_xpath, h]

/-- Witness for C2 at a concrete stale handle. -/
theorem generate_xpath_stale_error_witness :
    XPathGenerator.generate_xpath
      { tag_name := none, id := "x", className := "", name := "", text := "t", rel := none }
      = .error "ResolutionError: stale or detached element handle" :=
  generate_xpath_stale_error
    { tag_name := none, id := "x", className := "", name := "", text := "t", rel := none } rfl

/-- C3 counterexample: a div (neither link nor button) with short text does get
text-based candidates — the exact-text match even becomes the primary locator —
refuting the claim that text candidates are produced only for links/buttons. -/
theorem text_candidate_div_counterexample :
    XPathGenerator.generate_xpath
      { tag_name := some "div", id := "", className := "", name := "",
        text := "Hello", rel := none }
      = .ok "//div[text()=\x27Hello\x27]" ∧
    "//div[contains(text(), \x27Hello\x27)]"
      ∈ XPathGenerator.xpath_candidates "div" "" "" "" "Hello" none := by
  constructor
  · rfl
  · simp [XPathGenerator.xpath_candidates]
    decide

/-- C3 amended: the text-based candidate pair (exact text plus
contains-first-20-chars) is produced for an element of any tag whose stripped
text is non-empty and shorter than 50 characters; in particular with id, name
and class all empty, the exact-text match is the primary locator. -/
theorem text_candidate_any_tag (e : WebElement) (tag : String)
    (htag : e.tag_name = some tag) (hid : e.id = "") (hnm : e.name = "")
    (hcl : e.className = "") (ht : (strip e.text) ≠ "")
    (hlen : (strip e.text).length < 50) :
    XPathGenerator.generate_xpath e
      = .ok ("//" ++ tag ++ "[text()=\x27" ++ (strip e.text) ++ "\x27]") ∧
    ("//" ++ tag ++ "[contains(text(), \x27" ++ takeChars (strip e.text) 20 ++ "\x27)]")
      ∈ XPathGenerator.xpath_candidates tag e.id e.className e.name (strip e.text) e.rel := by
  constructor
  · simp [XPathGenerator.generate_xpath, htag, XPathGenerator.xpath_candidates,
      hid, hnm, hcl, ht, hlen]
  · simp [XPathGenerator.xpath_candidates, hid, hnm, hcl, ht, hlen]

/-- Witness for the amended C3 at a concrete paragraph element. -/
theorem text_candidate_any_tag_witness :
    XPathGenerator.generate_xpath
      { tag_name := some "p", id := "", className := "", name := "",
        text := "Welcome", rel := none }
      = .ok "//p[text()=\x27Welcome\x27]" ∧
    "//p[contains(text(), \x27Welcome\x27)]"
      ∈ XPathGenerator.xpath_candidates "p" "" "" "" (strip "Welcome") none :=
  text_candidate_any_tag
    { tag_name := some "p", id := "", className := "", name := "",
      text := "Welcome", rel := none } "p" rfl rfl rfl rfl (by decide) (by decide)

/-- C8: generate_xpath is a function of the observed tag name, attributes, text
and hierarchy outcome alone — two handles agreeing on all observations receive
identical results, so repeating the call on an unchanged element yields the
identical primary locator. -/
theorem generate_xpath_deterministic (e₁ e₂ : WebElement)
    (h1 : e₁.tag_name = e₂.tag_name) (h2 : e₁.id = e₂.id)
    (h3 : e₁.className = e₂.className) (h4 : e₁.name = e₂.name)
    (h5 : e₁.text = e₂.text) (h6 : e₁.rel = e₂.rel) :
    XPathGenerator.generate_xpath e₁ = XPathGenerator.generate_xpath e₂ := by
  cases e₁
  cases e₂
  simp only at h1 h2 h3 h4 h5 h6
  subst h1 h2 h3 h4 h5 h6
  rfl

/-- Witness for C8 at two concrete observationally-equal handles. -/
theorem generate_xpath_deterministic_witness :
    XPathGenerator.generate_xpath
      { tag_name := some "a", id := "", className := "nav", name := "",
        text := "Home", rel := none }
    = XPathGenerator.generate_xpath
      { tag_name := some "a", id := "", className := "nav", name := "",
        text := "Home", rel := none } :=
  generate_xpath_deterministic
    { tag_name := some "a", id := "", className := "nav", name := "",
      text := "Home", rel := none }
    { tag_name := some "a", id := "", className := "nav", name := "",
      text := "Home", rel := none } rfl rfl rfl rfl rfl rfl

theorem data_append (a b : String) : (a ++ b).data = a.data ++ b.data := by
  cases a
  cases b
  rfl

theorem beginsWith_append (p a b : String) (h : beginsWith p a) :
    beginsWith p (a ++ b) := by
  have hlen : p.data.length ≤ a.data.length := by
    have hl := congrArg List.length h
    rw [List.length_take] at hl
    omega
  unfold beginsWith at h ⊢
  rw [data_append, List.take_append_of_le_length hlen, h]

theorem beginsWith_refl_append (p t : String) : beginsWith p (p ++ t) := by
  unfold beginsWith
  rw [data_append, List.take_left]

theorem beginsWith_ne_empty (s : String) (h : beginsWith "/" s) : s ≠ "" := by
  intro h0
  subst h0
  simp [beginsWith] at h

theorem toDigitsCore_shift (b fuel : Nat) :
    ∀ (n : Nat) (ds : List Char),
      Nat.toDigitsCore b fuel n ds = Nat.toDigitsCore b fuel n [] ++ ds := by
  induction fuel with
  | zero => intro n ds; simp [Nat.toDigitsCore]
  | succ fuel ih =>
      intro n ds
      simp only [Nat.toDigitsCore]
      by_cases h : n / b = 0
      · simp [h]
      · simp only [h, if_false]
        rw [ih (n / b) (Nat.digitChar (n % b) :: ds), ih (n / b) [Nat.digitChar (n % b)]]
        simp

theorem decFrom_append (l₁ l₂ : List Char) :
    ∀ a, decFrom a (l₁ ++ l₂) = decFrom (decFrom a l₁) l₂ := by
  induction l₁ with
  | nil => intro a; rfl
  | cons c cs ih => intro a; exact ih (10 * a + (c.toNat - 48))

theorem decFrom_nil (a : Nat) : decFrom a [] = a := rfl

theorem decFrom_cons (a : Nat) (c : Char) (cs : List Char) :
    decFrom a (c :: cs) = decFrom (10 * a + (c.toNat - 48)) cs := rfl

theorem toDigitsCore_succ (b fuel n : Nat) (ds : List Char) :
    Nat.toDigitsCore b (fuel + 1) n ds =
      if n / b = 0 then Nat.digitChar (n % b) :: ds
      else Nat.toDigitsCore b fuel (n / b) (Nat.digitChar (n % b) :: ds) := rfl

theorem digitChar_decode : ∀ m, m < 10 → (Nat.digitChar m).toNat - 48 = m := by
  intro m hm
  interval_cases m <;> rfl

theorem decFrom_toDigitsCore (fuel : Nat) :
    ∀ n a, n < fuel →
      ∃ k, decFrom a (Nat.toDigitsCore 10 fuel n []) = a * 10 ^ k + n ∧ 0 < k := by
  induction fuel with
  | zero => intro n a h; exact absurd h (Nat.not_lt_zero n)
  | succ fuel ih =>
      intro n a h
      by_cases h0 : n / 10 = 0
      · refine ⟨1, ?_, Nat.one_pos⟩
        have hn10 : n < 10 := by
          rcases Nat.lt_or_ge n 10 with h10 | h10
          · exact h10
          · exact absurd h0 (by
              have : 0 < n / 10 := Nat.div_pos h10 (by norm_num)
              omega)
        rw [toDigitsCore_succ, if_pos h0, decFrom_cons, decFrom_nil]
        rw [digitChar_decode (n % 10) (Nat.mod_lt n (by norm_num))]
        have hmod : n % 10 = n := Nat.mod_eq_of_lt hn10
        rw [pow_one]
        omega
      · have hpos : 0 < n := by
          rcases Nat.eq_zero_or_pos n with rfl | hp
          · simp at h0
          · exact hp
        have hlt : n / 10 < fuel := by
          have h10 : n / 10 < n := Nat.div_lt_self hpos (by norm_num)
          omega
        obtain ⟨k, hk, hkpos⟩ := ih (n / 10) a hlt
        refine ⟨k + 1, ?_, by omega⟩
        rw [toDigitsCore_succ, if_neg h0, toDigitsCore_shift, decFrom_append, hk,
          decFrom_cons, decFrom_nil]
        rw [digitChar_decode (n % 10) (Nat.mod_lt n (by norm_num))]
        calc 10 * (a * 10 ^ k + n / 10) + n % 10
            = a * (10 ^ k * 10) + (10 * (n / 10) + n % 10) := by ring
          _ = a * 10 ^ (k + 1) + n := by rw [pow_succ, Nat.div_add_mod]

theorem natRepr_injective (m n : Nat) (h : Nat.repr m = Nat.repr n) : m = n := by
  obtain ⟨k1, hk1, -⟩ := decFrom_toDigitsCore (m + 1) m 0 (Nat.lt_succ_self m)
  obtain ⟨k2, hk2, -⟩ := decFrom_toDigitsCore (n + 1) n 0 (Nat.lt_succ_self n)
  have hd : Nat.toDigitsCore 10 (m + 1) m [] = Nat.toDigitsCore 10 (n + 1) n [] := by
    have hdata := congrArg String.data h
    simpa [Nat.repr, Nat.toDigits, List.asString] using hdata
  rw [hd, hk2] at hk1
  simp at hk1
  omega

theorem countSameTag_succ (cs : List Dom) (tag : String) (i : Nat) (ci : Dom)
    (hi : cs[i]? = some ci) (ht : ci.nodeType = 1) (htag : ci.tagName = tag) :
    countSameTag cs tag (i + 1) = countSameTag cs tag i + 1 := by
  unfold countSameTag
  rw [List.take_succ, hi]
  simp [List.filter_append, ht, htag]

theorem countSameTag_mono (cs : List Dom) (tag : String) (m n : Nat) (h : m ≤ n) :
    countSameTag cs tag m ≤ countSameTag cs tag n := by
  unfold countSameTag
  have htake : cs.take m = (cs.take n).take m := by
    rw [List.take_take, Nat.min_eq_left h]
  rw [htake]
  conv_rhs => rw [← List.take_append_drop m (cs.take n)]
  rw [List.filter_append, List.length_append]
  omega

theorem countSameTag_lt (cs : List Dom) (tag : String) (i j : Nat) (ci : Dom)
    (hij : i < j) (hi : cs[i]? = some ci) (ht : ci.nodeType = 1)
    (htag : ci.tagName = tag) :
    countSameTag cs tag i < countSameTag cs tag j := by
  have h1 := countSameTag_succ cs tag i ci hi ht htag
  have h2 := countSameTag_mono cs tag (i + 1) j hij
  omega

theorem getXPath_child (root p e : Dom) (ppath : List Nat) (i : Nat) (pre : String)
    (hp : nodeAt root ppath = some p) (hi : p.children[i]? = some e)
    (hid : e.id = "") (hpre : getXPath root ppath = some pre) :
    getXPath root (ppath ++ [i])
      = some (pre ++ "/" ++ lowerStr e.tagName ++ "[" ++
          Nat.repr (countSameTag p.children e.tagName i + 1) ++ "]") := by
  unfold getXPath at hpre ⊢
  have hrev : (ppath ++ [i]).reverse = i :: ppath.reverse := by
    simp
  rw [hrev]
  simp only [getXPathRev, List.reverse_reverse, hp, hi, hid, hpre]
  simp

theorem string_affix_inj (A B r₁ r₂ : String) (h : (A ++ r₁) ++ B = (A ++ r₂) ++ B) :
    r₁ = r₂ := by
  have hd := congrArg String.data h
  rw [data_append, data_append, data_append, data_append] at hd
  have h1 := List.append_cancel_right hd
  have h2 := List.append_cancel_left h1
  cases r₁
  cases r₂
  exact congrArg String.mk h2

theorem getXPathRev_slash (root : Dom) :
    ∀ (rev : List Nat) (s : String), getXPathRev root rev = some s → beginsWith "/" s := by
  intro rev
  induction rev with
  | nil =>
      intro s h
      simp only [getXPathRev] at h
      by_cases h0 : root.id ≠ ""
      · rw [if_pos h0] at h
        obtain rfl := Option.some.inj h
        exact beginsWith_append _ _ _ (beginsWith_append _ _ _ (by unfold beginsWith; rfl))
      · rw [if_neg h0] at h
        obtain rfl := Option.some.inj h
        unfold beginsWith
        rfl
  | cons i rev ih =>
      intro s h
      simp only [getXPathRev] at h
      split at h
      · exact absurd h (by simp)
      split at h
      · exact absurd h (by simp)
      split at h
      · obtain rfl := Option.some.inj h
        exact beginsWith_append _ _ _ (beginsWith_append _ _ _ (by unfold beginsWith; rfl))
      · split at h
        · exact absurd h (by simp)
        · obtain rfl := Option.some.inj h
          rename_i pre hpre
          exact beginsWith_append _ _ _ (beginsWith_append _ _ _ (beginsWith_append _ _ _
            (beginsWith_append _ _ _ (beginsWith_append _ _ _ (ih pre hpre)))))

theorem getXPath_slash (root : Dom) (path : List Nat) (s : String)
    (h : getXPath root path = some s) : beginsWith "/" s :=
  getXPathRev_slash root path.reverse s h

/-- C6: two same-tag sibling element nodes with empty ids below the same
parent receive, from the positional-fallback script, locators that share the
same prefix and differ exactly in their 1-based ordinal index among same-tag
siblings; the two locators are distinct and non-empty. -/
theorem positional_sibling_locators (root p ci cj : Dom) (ppath : List Nat)
    (i j : Nat) (tag pre : String)
    (hp : nodeAt root ppath = some p)
    (hi : p.children[i]? = some ci) (hj : p.children[j]? = some cj)
    (hij : i < j)
    (hci_id : ci.id = "") (hcj_id : cj.id = "")
    (hci_tag : ci.tagName = tag) (hcj_tag : cj.tagName = tag)
    (hci_type : ci.nodeType = 1)
    (hpre : getXPath root ppath = some pre) :
    getXPath root (ppath ++ [i])
      = some (pre ++ "/" ++ lowerStr tag ++ "[" ++
          Nat.repr (countSameTag p.children tag i + 1) ++ "]") ∧
    getXPath root (ppath ++ [j])
      = some (pre ++ "/" ++ lowerStr tag ++ "[" ++
          Nat.repr (countSameTag p.children tag j + 1) ++ "]") ∧
    countSameTag p.children tag i + 1 < countSameTag p.children tag j + 1 ∧
    pre ++ "/" ++ lowerStr tag ++ "[" ++ Nat.repr (countSameTag p.children tag i + 1) ++ "]"
      ≠ pre ++ "/" ++ lowerStr tag ++ "[" ++ Nat.repr (countSameTag p.children tag j + 1) ++ "]" ∧
    pre ++ "/" ++ lowerStr tag ++ "[" ++ Nat.repr (countSameTag p.children tag i + 1) ++ "]"
      ≠ "" ∧
    pre ++ "/" ++ lowerStr tag ++ "[" ++ Nat.repr (countSameTag p.children tag j + 1) ++ "]"
      ≠ "" := by
  have hei := getXPath_child root p ci ppath i pre hp hi hci_id hpre
  have hej := getXPath_child root p cj ppath j pre hp hj hcj_id hpre
  rw [hci_tag] at hei
  rw [hcj_tag] at hej
  have hlt := countSameTag_lt p.children tag i j ci hij hi hci_type hci_tag
  have hslash : beginsWith "/" pre := getXPath_slash root ppath pre hpre
  refine ⟨hei, hej, by omega, ?_, ?_, ?_⟩
  · intro heq
    have hr := string_affix_inj (pre ++ "/" ++ lowerStr tag ++ "[") "]" _ _ heq
    have := natRepr_injective _ _ hr
    omega
  · exact beginsWith_ne_empty _ (beginsWith_append _ _ _ (beginsWith_append _ _ _
      (beginsWith_append _ _ _ (beginsWith_append _ _ _ (beginsWith_append _ _ _ hslash)))))
  · exact beginsWith_ne_empty _ (beginsWith_append _ _ _ (beginsWith_append _ _ _
      (beginsWith_append _ _ _ (beginsWith_append _ _ _ (beginsWith_append _ _ _ hslash)))))

/-- Witness for C6: two sibling button nodes with no id below document.body
receive /html/body/button[1] and /html/body/button[2]. -/
theorem positional_sibling_locators_witness :
    getXPath (Dom.node "" "BODY" 1 [Dom.node "" "BUTTON" 1 [], Dom.node "" "BUTTON" 1 []]) [0]
      = some "/html/body/button[1]" ∧
    getXPath (Dom.node "" "BODY" 1 [Dom.node "" "BUTTON" 1 [], Dom.node "" "BUTTON" 1 []]) [1]
      = some "/html/body/button[2]" := by
  have h := positional_sibling_locators
    (Dom.node "" "BODY" 1 [Dom.node "" "BUTTON" 1 [], Dom.node "" "BUTTON" 1 []])
    (Dom.node "" "BODY" 1 [Dom.node "" "BUTTON" 1 [], Dom.node "" "BUTTON" 1 []])
    (Dom.node "" "BUTTON" 1 []) (Dom.node "" "BUTTON" 1 [])
    [] 0 1 "BUTTON" "/html/body" rfl rfl rfl Nat.one_pos rfl rfl rfl rfl rfl rfl
  exact ⟨h.1, h.2.1⟩

theorem xpath_candidates_slash (tag element_id class_name nm text : String)
    (rel : Option String)
    (hrel : ∀ r, rel = some r → beginsWith "/" r) :
    ∀ x ∈ XPathGenerator.xpath_candidates tag element_id class_name nm text rel,
      beginsWith "/" x := by
  have hbw2 : beginsWith "/" ("//" ++ tag) :=
    beginsWith_append _ _ _ (by unfold beginsWith; rfl)
  intro x hx
  unfold XPathGenerator.xpath_candidates at hx
  simp only [List.mem_append] at hx
  rcases hx with ((((hx | hx) | hx) | hx) | hx)
  · split at hx
    · simp only [List.mem_singleton] at hx
      subst hx
      exact beginsWith_append _ _ _ (beginsWith_append _ _ _ (by unfold beginsWith; rfl))
    · exact absurd hx (by simp)
  · split at hx
    · simp only [List.mem_singleton] at hx
      subst hx
      exact beginsWith_append _ _ _ (beginsWith_append _ _ _
        (beginsWith_append _ _ _ hbw2))
    · exact absurd hx (by simp)
  · split at hx
    · split at hx
      · simp only [List.mem_singleton] at hx
        subst hx
        exact beginsWith_append _ _ _ (beginsWith_append _ _ _
          (beginsWith_append _ _ _ hbw2))
      · simp only [List.mem_singleton] at hx
        subst hx
        exact beginsWith_append _ _ _ (beginsWith_append _ _ _
          (beginsWith_append _ _ _ hbw2))
    · exact absurd hx (by simp)
  · split at hx
    · simp only [List.mem_cons, List.mem_singleton] at hx
      rcases hx with hx | hx
      · subst hx
        exact beginsWith_append _ _ _ (beginsWith_append _ _ _
          (beginsWith_append _ _ _ (beginsWith_append _ _ _ hbw2)))
      · rcases hx with hx | hx
        · subst hx
          exact beginsWith_append _ _ _ (beginsWith_append _ _ _
            (beginsWith_append _ _ _ (beginsWith_append _ _ _ hbw2)))
        · exact absurd hx (by simp)
    · exact absurd hx (by simp)
  · cases hr : rel with
    | none =>
        rw [hr] at hx
        simp at hx
    | some r =>
        rw [hr] at hx
        have hx2 : x ∈ (if r ≠ "" then [r] else []) := hx
        split at hx2
        · simp only [List.mem_singleton] at hx2
          subst hx2
          exact hrel _ hr
        · exact absurd hx2 (by simp)

/-- C10 amended: for every handle with some tag name whose hierarchical
candidate, when present, came from the injected getXPath script, generate_xpath
returns a non-empty locator beginning with the character /; and when the
element has no id, name or class, its stripped text is empty or at least 50
characters, and the hierarchical lookup raised, the terminal fallback //TAG is
returned (never an empty string or an exception).  The claimed // prefix only
holds for the non-hierarchical candidates. -/
theorem generate_xpath_nonempty_slash (e : WebElement) (tag : String)
    (htag : e.tag_name = some tag)
    (hrel : ∀ r, e.rel = some r → ∃ root path, getXPath root path = some r) :
    (∃ l, XPathGenerator.generate_xpath e = .ok l ∧ l ≠ "" ∧ beginsWith "/" l) ∧
    (e.id = "" → e.name = "" → e.className = "" →
      (strip e.text = "" ∨ 50 ≤ (strip e.text).length) → e.rel = none →
      XPathGenerator.generate_xpath e = .ok ("//" ++ tag)) := by
  have hrel2 : ∀ r, e.rel = some r → beginsWith "/" r := by
    intro r hr
    obtain ⟨root, path, hg⟩ := hrel r hr
    exact getXPath_slash root path r hg
  constructor
  · simp only [XPathGenerator.generate_xpath, htag]
    cases hc : XPathGenerator.xpath_candidates tag e.id e.className e.name (strip e.text) e.rel with
    | nil =>
        refine ⟨"//" ++ tag, rfl, ?_, ?_⟩
        · exact beginsWith_ne_empty _ (beginsWith_append _ _ _ (by unfold beginsWith; rfl))
        · exact beginsWith_append _ _ _ (by unfold beginsWith; rfl)
    | cons x xs =>
        have hmem : x ∈ XPathGenerator.xpath_candidates tag e.id e.className e.name
            (strip e.text) e.rel := by
          rw [hc]
          exact List.mem_cons_self x xs
        have hbw := xpath_candidates_slash tag e.id e.className e.name (strip e.text)
          e.rel hrel2 x hmem
        exact ⟨x, rfl, beginsWith_ne_empty _ hbw, hbw⟩
  · intro h1 h2 h3 h4 h5
    have hct : ¬(strip e.text ≠ "" ∧ (strip e.text).length < 50) := by
      rcases h4 with h4 | h4
      · intro hcc; exact hcc.1 h4
      · intro hcc; omega
    simp only [XPathGenerator.generate_xpath, htag, XPathGenerator.xpath_candidates,
      h1, h2, h3, h5]
    rw [if_neg (by simp), if_neg (by simp), if_neg (by simp), if_neg hct]
    rfl

/-- Witness for the amended C10: a bare span with nothing to go on receives
the terminal fallback //span. -/
theorem generate_xpath_nonempty_slash_witness :
    XPathGenerator.generate_xpath
      { tag_name := some "span", id := "", className := "", name := "",
        text := "", rel := none }
      = .ok ("//" ++ "span") :=
  (generate_xpath_nonempty_slash
    { tag_name := some "span", id := "", className := "", name := "",
      text := "", rel := none }
    "span" rfl (fun r h => by cases h)).2 rfl rfl rfl (Or.inl rfl) rfl

/-- C10 counterexample: for a button whose only candidate is the hierarchical
relative path (produced by the injected script on a concrete document), the
primary locator is /html/body/button[1], which does not begin with //. -/
theorem locator_single_slash_counterexample :
    getXPath (Dom.node "" "BODY" 1 [Dom.node "" "BUTTON" 1 []]) [0]
      = some "/html/body/button[1]" ∧
    XPathGenerator.generate_xpath
      { tag_name := some "button", id := "", className := "", name := "",
        text := "", rel := some "/html/body/button[1]" }
      = .ok "/html/body/button[1]" ∧
    ¬ beginsWith "//" "/html/body/button[1]" := by
  refine ⟨rfl, rfl, ?_⟩
  unfold beginsWith
  decide

/-- C9: the fallback description generator reads only the action_type,
element_text, element_tag and page_url fields, so records agreeing on those
four fields receive the same description; and with no API key configured,
analyze_action returns exactly the fallback result whatever the remote model
would have answered. -/
theorem fallback_analysis_pure (a b : ActionRecord)
    (llm : ActionRecord → Except String String)
    (h1 : a.action_type = b.action_type) (h2 : a.element_text = b.element_text)
    (h3 : a.element_tag = b.element_tag) (h4 : a.page_url = b.page_url) :
    LLMAnalyzer.fallback_analysis a = LLMAnalyzer.fallback_analysis b ∧
    LLMAnalyzer.analyze_action none llm a = LLMAnalyzer.fallback_analysis a := by
  constructor
  · unfold LLMAnalyzer.fallback_analysis
    rw [h1, h2, h3, h4]
  · rfl

/-- Witness for C9: two records differing only outside the four fields, and
the no-key path with an unavailable remote model. -/
theorem fallback_analysis_pure_witness :
    LLMAnalyzer.fallback_analysis
      { timestamp := "t1", action_type := "click", element_xpath := "//a[1]",
        element_text := "Home", element_tag := "a", element_attributes := [],
        page_url := "http://example.com", description := "d1" }
      = LLMAnalyzer.fallback_analysis
      { timestamp := "t2", action_type := "click", element_xpath := "//a[2]",
        element_text := "Home", element_tag := "a",
        element_attributes := [("id", "z")],
        page_url := "http://example.com", description := "d2" } ∧
    LLMAnalyzer.analyze_action none (fun _ => .error "offline")
      { timestamp := "t1", action_type := "click", element_xpath := "//a[1]",
        element_text := "Home", element_tag := "a", element_attributes := [],
        page_url := "http://example.com", description := "d1" }
      = LLMAnalyzer.fallback_analysis
      { timestamp := "t1", action_type := "click", element_xpath := "//a[1]",
        element_text := "Home", element_tag := "a", element_attributes := [],
        page_url := "http://example.com", description := "d1" } :=
  fallback_analysis_pure
    { timestamp := "t1", action_type := "click", element_xpath := "//a[1]",
      element_text := "Home", element_tag := "a", element_attributes := [],
      page_url := "http://example.com", description := "d1" }
    { timestamp := "t2", action_type := "click", element_xpath := "//a[2]",
      element_text := "Home", element_tag := "a",
      element_attributes := [("id", "z")],
      page_url := "http://example.com", description := "d2" }
    (fun _ => .error "offline") rfl rfl rfl rfl

theorem underscore_key_ne_empty (x y z : String) : x ++ "_" ++ y ++ "_" ++ z ≠ "" := by
  intro h
  have hd := congrArg List.length (congrArg String.data h)
  rw [data_append, data_append, data_append] at hd
  simp [List.length_append] at hd

theorem get_element_key_some (a : JsAction) (e : JsElement) (hel : a.element = some e) :
    get_element_key a = e.id ++ "_" ++ e.name ++ "_" ++ e.tagName := by
  unfold get_element_key
  rw [hel]
  exact if_neg (underscore_key_ne_empty e.id e.name e.tagName)

/-- C4 counterexample: fieldA and fieldB share id x (differing in name), so
the element key the claim words (id, else name, else tag name) is the same x
for both, and the second event carries exactly the value v last recorded for
that key — yet the monitor appends a second record, because the code keys the
dedup map by the concatenation id_name_tagName, which separates the fields. -/
theorem input_dedup_counterexample :
    spec_element_key fieldA = spec_element_key fieldB ∧
    inputEventA.value = inputEventB.value ∧
    (monitor_step demoEnv (monitor_step demoEnv recState0 inputEventA)
        inputEventB).actions.length = 2 := by
  refine ⟨rfl, rfl, rfl⟩

/-- C4 amended: an input event with a fresh dedup key is suppressed exactly
when its value equals the last recorded value under the element key
id_name_tagName computed by _get_element_key (not id, else name, else tag);
an event with a new distinct value for that key and a usable element is
retained. -/
theorem input_dedup (env : RecEnv) (st : RecState) (a : JsAction) (e : JsElement)
    (htyp : a.typ = "input") (hel : a.element = some e)
    (hfresh : action_key a ∉ st.processed) :
    (st.last_input_values.lookup (e.id ++ "_" ++ e.name ++ "_" ++ e.tagName)
        = some (a.value.getD "") →
      (monitor_step env st a).actions = st.actions) ∧
    (st.last_input_values.lookup (e.id ++ "_" ++ e.name ++ "_" ++ e.tagName)
        ≠ some (a.value.getD "") →
      e.tagName ≠ "" →
      ∃ r, (monitor_step env st a).actions = st.actions ++ [r]) := by
  have hkey := get_element_key_some a e hel
  constructor
  · intro hlook
    simp only [monitor_step, hkey, htyp]
    rw [if_neg hfresh, if_pos trivial, if_pos hlook]
  · intro hlook htagne
    simp only [monitor_step, hkey, htyp]
    rw [if_neg hfresh, if_pos trivial, if_neg hlook]
    simp only [record_action, create_action_record, hel, htyp]
    rw [if_neg (by decide : ¬("input" = "navigate")), if_neg htagne]
    exact ⟨_, rfl⟩

/-- Witness for the amended C4: the same event is suppressed when the map
already holds value v for key x_y_INPUT, and retained from the reset state. -/
theorem input_dedup_witness :
    (monitor_step demoEnv stateWithV inputEventW).actions = [] ∧
    (∃ r, (monitor_step demoEnv recState0 inputEventW).actions = [] ++ [r]) :=
  ⟨(input_dedup demoEnv stateWithV inputEventW fieldA rfl rfl (by decide)).1 (by decide),
   (input_dedup demoEnv recState0 inputEventW fieldA rfl rfl (by decide)).2
     (by decide) (by decide)⟩

/-- C5: a navigate event reporting the last-recorded URL appends no record;
one with a fresh dedup key and a different URL appends exactly one record and
updates the last-recorded URL. -/
theorem navigate_dedup (env : RecEnv) (st : RecState) (a : JsAction) (u : String)
    (htyp : a.typ = "navigate") (hurl : a.url = some u) :
    (u = st.last_url → (monitor_step env st a).actions = st.actions) ∧
    (action_key a ∉ st.processed → u ≠ st.last_url →
      ∃ r, (monitor_step env st a).actions = st.actions ++ [r] ∧
        (monitor_step env st a).last_url = u) := by
  constructor
  · intro hsame
    by_cases hk : action_key a ∈ st.processed
    · simp only [monitor_step]
      rw [if_pos hk]
    · simp only [monitor_step, htyp, hurl]
      rw [if_neg hk, if_neg (by decide : ¬("navigate" = "input")), if_pos trivial,
        if_pos (by simpa using hsame)]
  · intro hfresh hdiff
    simp only [monitor_step, htyp, hurl]
    rw [if_neg hfresh, if_neg (by decide : ¬("navigate" = "input")), if_pos trivial,
      if_neg (by simpa using hdiff)]
    simp only [record_action, create_action_record, htyp, hurl]
    rw [if_pos trivial]
    exact ⟨_, rfl, rfl⟩

/-- Witness for C5: the same navigate event is suppressed when last_url
already reads its URL, and retained from the reset state. -/
theorem navigate_dedup_witness :
    (monitor_step demoEnv stateAtPage navEvent).actions = [] ∧
    (∃ r, (monitor_step demoEnv recState0 navEvent).actions = [] ++ [r] ∧
      (monitor_step demoEnv recState0 navEvent).last_url = "http://example.com/page") :=
  ⟨(navigate_dedup demoEnv stateAtPage navEvent "http://example.com/page" rfl rfl).1 rfl,
   (navigate_dedup demoEnv recState0 navEvent "http://example.com/page" rfl rfl).2
     (by decide) (by decide)⟩


theorem record_action_none (env : RecEnv) (st : RecState) (a : JsAction) (key : String)
    (h : create_action_record env a = none) : record_action env st a key = st := by
  unfold record_action
  rw [h]

theorem record_action_some (env : RecEnv) (st : RecState) (a : JsAction) (key : String)
    (r : ActionRecord) (h : create_action_record env a = some r) :
    record_action env st a key
      = { st with actions := st.actions ++ [r], processed := key :: st.processed } := by
  unfold record_action
  rw [h]

theorem monitor_step_processed (env : RecEnv) (st : RecState) (a : JsAction)
    (hk : action_key a ∈ st.processed) : monitor_step env st a = st := by
  simp only [monitor_step]
  rw [if_pos hk]

theorem monitor_step_input_supp (env : RecEnv) (st : RecState) (a : JsAction)
    (hk : action_key a ∉ st.processed) (hin : a.typ = "input")
    (hlook : st.last_input_values.lookup (get_element_key a) = some (a.value.getD "")) :
    monitor_step env st a = st := by
  simp only [monitor_step]
  rw [if_neg hk, if_pos hin, if_pos hlook]

theorem monitor_step_input_go (env : RecEnv) (st : RecState) (a : JsAction)
    (hk : action_key a ∉ st.processed) (hin : a.typ = "input")
    (hlook : st.last_input_values.lookup (get_element_key a) ≠ some (a.value.getD "")) :
    monitor_step env st a = record_action env { st with last_input_values := (get_element_key a, a.value.getD "") :: st.last_input_values } a (action_key a) := by
  simp only [monitor_step]
  rw [if_neg hk, if_pos hin, if_neg hlook]

theorem monitor_step_nav_supp (env : RecEnv) (st : RecState) (a : JsAction)
    (hk : action_key a ∉ st.processed) (hin : a.typ ≠ "input") (hnav : a.typ = "navigate")
    (hu : a.url.getD "" = st.last_url) : monitor_step env st a = st := by
  simp only [monitor_step]
  rw [if_neg hk, if_neg hin, if_pos hnav, if_pos hu]

theorem monitor_step_nav_go (env : RecEnv) (st : RecState) (a : JsAction)
    (hk : action_key a ∉ st.processed) (hin : a.typ ≠ "input") (hnav : a.typ = "navigate")
    (hu : a.url.getD "" ≠ st.last_url) :
    monitor_step env st a = record_action env { st with last_url := a.url.getD "" } a (action_key a) := by
  simp only [monitor_step]
  rw [if_neg hk, if_neg hin, if_pos hnav, if_neg hu]

theorem monitor_step_other (env : RecEnv) (st : RecState) (a : JsAction)
    (hk : action_key a ∉ st.processed) (hin : a.typ ≠ "input") (hnav : a.typ ≠ "navigate") :
    monitor_step env st a = record_action env st a (action_key a) := by
  simp only [monitor_step]
  rw [if_neg hk, if_neg hin, if_neg hnav]

theorem lookup_cons_self (k v : String) (rest : List (String × String)) :
    List.lookup k ((k, v) :: rest) = some v := by
  simp [List.lookup]

theorem monitor_step_appends (env : RecEnv) (st : RecState) (a : JsAction) :
    (monitor_step env st a).actions = st.actions ∨
    ((∃ r, (monitor_step env st a).actions = st.actions ++ [r]) ∧
      (monitor_step env st a).processed = action_key a :: st.processed) := by
  by_cases hk : action_key a ∈ st.processed
  · rw [monitor_step_processed env st a hk]
    exact Or.inl rfl
  · by_cases hin : a.typ = "input"
    · by_cases hlook : st.last_input_values.lookup (get_element_key a) = some (a.value.getD "")
      · rw [monitor_step_input_supp env st a hk hin hlook]
        exact Or.inl rfl
      · rw [monitor_step_input_go env st a hk hin hlook]
        cases hcr : create_action_record env a with
        | none =>
            rw [record_action_none _ _ _ _ hcr]
            exact Or.inl rfl
        | some r =>
            rw [record_action_some _ _ _ _ r hcr]
            exact Or.inr ⟨⟨r, rfl⟩, rfl⟩
    · by_cases hnav : a.typ = "navigate"
      · by_cases hu : a.url.getD "" = st.last_url
        · rw [monitor_step_nav_supp env st a hk hin hnav hu]
          exact Or.inl rfl
        · rw [monitor_step_nav_go env st a hk hin hnav hu]
          cases hcr : create_action_record env a with
          | none =>
              rw [record_action_none _ _ _ _ hcr]
              exact Or.inl rfl
          | some r =>
              rw [record_action_some _ _ _ _ r hcr]
              exact Or.inr ⟨⟨r, rfl⟩, rfl⟩
      · rw [monitor_step_other env st a hk hin hnav]
        cases hcr : create_action_record env a with
        | none =>
            rw [record_action_none _ _ _ _ hcr]
            exact Or.inl rfl
        | some r =>
            rw [record_action_some _ _ _ _ r hcr]
            exact Or.inr ⟨⟨r, rfl⟩, rfl⟩

theorem monitor_step_idem (env : RecEnv) (st : RecState) (a : JsAction) :
    monitor_step env (monitor_step env st a) a = monitor_step env st a := by
  by_cases hk : action_key a ∈ st.processed
  · rw [monitor_step_processed env st a hk]
    exact monitor_step_processed env st a hk
  · by_cases hin : a.typ = "input"
    · by_cases hlook : st.last_input_values.lookup (get_element_key a) = some (a.value.getD "")
      · rw [monitor_step_input_supp env st a hk hin hlook]
        exact monitor_step_input_supp env st a hk hin hlook
      · have h1 := monitor_step_input_go env st a hk hin hlook
        cases hcr : create_action_record env a with
        | none =>
            rw [h1, record_action_none _ _ _ _ hcr]
            exact monitor_step_input_supp env _ a hk hin (lookup_cons_self _ _ _)
        | some r =>
            rw [h1, record_action_some _ _ _ _ r hcr]
            exact monitor_step_processed env _ a (List.mem_cons_self _ _)
    · by_cases hnav : a.typ = "navigate"
      · by_cases hu : a.url.getD "" = st.last_url
        · rw [monitor_step_nav_supp env st a hk hin hnav hu]
          exact monitor_step_nav_supp env st a hk hin hnav hu
        · have h1 := monitor_step_nav_go env st a hk hin hnav hu
          cases hcr : create_action_record env a with
          | none =>
              rw [h1, record_action_none _ _ _ _ hcr]
              exact monitor_step_nav_supp env _ a hk hin hnav rfl
          | some r =>
              rw [h1, record_action_some _ _ _ _ r hcr]
              exact monitor_step_processed env _ a (List.mem_cons_self _ _)
      · have h1 := monitor_step_other env st a hk hin hnav
        cases hcr : create_action_record env a with
        | none =>
            rw [h1, record_action_none _ _ _ _ hcr]
            rw [monitor_step_other env st a hk hin hnav, record_action_none _ _ _ _ hcr]
        | some r =>
            rw [h1, record_action_some _ _ _ _ r hcr]
            exact monitor_step_processed env _ a (List.mem_cons_self _ _)

/-- C7: a drained event whose dedup key (the actionId supplied by the source,
else the synthesized type_timestamp string) is already in the processed set
leaves the state unchanged; an event that appends a record always leaves its
key in the processed set; and draining the same event a second time appends
no further record, whatever the event was. -/
theorem dedup_key_invariant (env : RecEnv) (st : RecState) (a : JsAction) :
    (action_key a ∈ st.processed → monitor_step env st a = st) ∧
    ((monitor_step env st a).actions ≠ st.actions →
      action_key a ∈ (monitor_step env st a).processed) ∧
    (monitor_step env (monitor_step env st a) a).actions
      = (monitor_step env st a).actions := by
  refine ⟨monitor_step_processed env st a, ?_, by rw [monitor_step_idem env st a]⟩
  intro hne
  rcases monitor_step_appends env st a with h | ⟨⟨r, h⟩, h2⟩
  · exact absurd h hne
  · rw [h2]
    exact List.mem_cons_self _ _

/-- Witness for C7 at the concrete navigate event: draining it twice appends
nothing on the second pass. -/
theorem dedup_key_invariant_witness :
    (monitor_step demoEnv (monitor_step demoEnv recState0 navEvent) navEvent).actions
      = (monitor_step demoEnv recState0 navEvent).actions :=
  (dedup_key_invariant demoEnv recState0 navEvent).2.2

end WebPageAnalyzer
